import Mathlib

set_option maxHeartbeats 1000000

namespace FedexTracker

/- Shallow embedding of the FedEx tracking dashboard (src/app3.py, src/db_helper.py).
   Raw API responses are modelled by the nested record types below: a JSON key whose
   absence the code defaults through dict.get is an Option field, and a container the
   code defaults to an empty list is a List field (a missing list key and an empty
   list are indistinguishable to the code, which only ever reads them through
   .get(key, []) followed by truthiness tests).  The external date parser
   pd.to_datetime and the Python float constructor are collaborators, modelled as
   parameters of type String -> Option Nat and String -> Option Rat: a parse failure
   caught by a bare except in the code is the none case.  Timestamps are Nat with 0
   standing for pd.Timestamp.min, the sentinel the code substitutes for an
   unparsable scan date. -/

/-- Cell that holds either a raw string (for the sentinel or an unparsable date kept
verbatim) or a parsed timestamp, mirroring the mixed str-or-Timestamp values the
code stores in its result rows. -/
inductive Value where
  | str (s : String)
  | ts (t : Nat)
deriving DecidableEq

/-- scanLocation object of a scan event (app3.py lines 215-221 and 408-414). -/
structure ScanLocation where
  city : Option String
  stateOrProvinceCode : Option String
  countryCode : Option String
  postalCode : Option String
deriving DecidableEq

/-- One entry of the scanEvents list. -/
structure ScanEvent where
  eventDescription : Option String
  date : Option String
  exceptionDescription : Option String
  scanLocation : Option ScanLocation
deriving DecidableEq

/-- One entry of the dateAndTimes list. -/
structure DateAndTime where
  type : Option String
  dateTime : Option String
deriving DecidableEq

/-- One entry of the availableImages list. -/
structure AvailableImage where
  type : Option String
deriving DecidableEq

/-- latestStatusDetail object. -/
structure LatestStatusDetail where
  statusByLocale : Option String
deriving DecidableEq

/-- address object inside shipperInformation and recipientInformation. -/
structure Address where
  city : Option String
deriving DecidableEq

/-- shipperInformation and recipientInformation objects. -/
structure PartyInformation where
  address : Option Address
deriving DecidableEq

/-- One entry of the packageDetails.weightAndDimensions.weight list. -/
structure WeightEntry where
  value : Option String
deriving DecidableEq

/-- weightAndDimensions object. -/
structure WeightAndDimensions where
  weight : List WeightEntry
deriving DecidableEq

/-- packageDetails object. -/
structure PackageDetails where
  weightAndDimensions : Option WeightAndDimensions
deriving DecidableEq

/-- The first element of trackResults, from which every field is extracted. -/
structure TrackInfo where
  latestStatusDetail : Option LatestStatusDetail
  dateAndTimes : List DateAndTime
  availableImages : List AvailableImage
  scanEvents : List ScanEvent
  shipperInformation : Option PartyInformation
  recipientInformation : Option PartyInformation
  packageDetails : Option PackageDetails
deriving DecidableEq

/-- One entry of output.completeTrackResults. -/
structure CompleteTrackResult where
  trackingNumber : Option String
  trackResults : List TrackInfo
deriving DecidableEq

/-- The output object of a raw tracking response. -/
structure OutputObj where
  completeTrackResults : List CompleteTrackResult
deriving DecidableEq

/-- A raw tracking response as returned by the tracking API. -/
structure RawResponse where
  output : Option OutputObj
deriving DecidableEq

/-- raw_json.get(&quot;output&quot;, {}).get(&quot;completeTrackResults&quot;, []): the defensive
descent shared by all three views (app3.py lines 163, 368, 496). -/
def completeTrackResultsOf (raw : RawResponse) : List CompleteTrackResult :=
  match raw.output with
  | none => []
  | some o => o.completeTrackResults

/-- Status extraction of the single-lookup view, app3.py line 176:
track_info.get(&quot;latestStatusDetail&quot;, {}).get(&quot;statusByLocale&quot;, &quot;N/A&quot;). -/
def statusSingle (ti : TrackInfo) : String :=
  (ti.latestStatusDetail.bind (fun d => d.statusByLocale)).getD ("N/A")

/-- Status extraction of the batch-results view, app3.py line 374: identical text to
the single-lookup site. -/
def statusBatch (ti : TrackInfo) : String :=
  (ti.latestStatusDetail.bind (fun d => d.statusByLocale)).getD ("N/A")

/-- Status extraction of the analytics view, app3.py line 501, which defaults to
the string UNKNOWN instead of N/A. -/
def statusAnalytics (ti : TrackInfo) : String :=
  (ti.latestStatusDetail.bind (fun d => d.statusByLocale)).getD ("UNKNOWN")

/-- Proof-of-delivery extraction of the single-lookup view, app3.py lines 192-197:
the type of the first availableImages entry whose type is present and truthy. -/
def podSingle (imgs : List AvailableImage) : String :=
  (imgs.findSome? (fun i =>
    match i.type with
    | some t => if t = "" then none else some t
    | none => none)).getD ("N/A")

/-- Proof-of-delivery extraction of the batch-results view, app3.py lines 388-394:
pod_item.get(&quot;type&quot;, &quot;&quot;) kept when truthy, same policy as the single site. -/
def podBatch (imgs : List AvailableImage) : String :=
  (imgs.findSome? (fun i =>
    match i.type with
    | some t => if t = "" then none else some t
    | none => none)).getD ("N/A")

/-- Location string of the single-lookup view, app3.py lines 215-221: truthy parts of
city, stateOrProvinceCode, countryCode, postalCode joined by a comma, N/A if none. -/
def locSingle (loc : ScanLocation) : String :=
  match ([loc.city, loc.stateOrProvinceCode, loc.countryCode, loc.postalCode].filterMap id).filter
      (fun v => !(v == "")) with
  | [] => "N/A"
  | parts => String.intercalate (", ") parts

/-- Location string of the batch-results view, app3.py lines 408-414: identical text
to the single-lookup site. -/
def locBatch (loc : ScanLocation) : String :=
  match ([loc.city, loc.stateOrProvinceCode, loc.countryCode, loc.postalCode].filterMap id).filter
      (fun v => !(v == "")) with
  | [] => "N/A"
  | parts => String.intercalate (", ") parts

/-- The key function event_date of app3.py lines 355-362: parse ev.get(&quot;date&quot;, &quot;&quot;)
with pd.to_datetime and fall back to pd.Timestamp.min (modelled as 0) when the bare
except fires. -/
def event_date (parse : String → Option Nat) (ev : ScanEvent) : Nat :=
  (parse (ev.date.getD (""))).getD 0

/-- The Python builtin max(xs, key=k) on a nonempty list: left fold that replaces the
current maximum only when the key is strictly greater, so the first element attaining
the maximal key wins ties. -/
def pyMax {α : Type} (key : α → Nat) (x : α) (xs : List α) : α :=
  xs.foldl (fun acc y => if key acc < key y then y else acc) x

/-- Estimated-delivery extraction of the batch-results view, app3.py lines 375-387:
the dateTime of the first dateAndTimes entry whose type equals ESTIMATED_DELIVERY,
parsed as a timestamp, falling back to the raw string when parsing fails, N/A when no
such entry exists. -/
def estDeliveryBatch (parse : String → Option Nat) (dts : List DateAndTime) : Value :=
  match dts.find? (fun item => item.type == some ("ESTIMATED_DELIVERY")) with
  | none => Value.str ("N/A")
  | some item =>
    match parse (item.dateTime.getD ("N/A")) with
    | some t => Value.ts t
    | none => Value.str (item.dateTime.getD ("N/A"))

/-- Event-date display value of the batch-results view, app3.py lines 400-407:
latest_event.get(&quot;date&quot;, &quot;N/A&quot;) parsed, kept as the raw string on failure. -/
def eventDateValBatch (parse : String → Option Nat) (ev : ScanEvent) : Value :=
  match parse (ev.date.getD ("N/A")) with
  | some t => Value.ts t
  | none => Value.str (ev.date.getD ("N/A"))

/-- The flat row built for each entry by the batch-results view (app3.py 435-443). -/
structure ResultRow where
  trackingNumber : String
  status : String
  estimatedDelivery : Value
  proofOfDelivery : String
  latestEvent : String
  eventDate : Value
  location : String
deriving DecidableEq

/-- The per-entry normalization of the batch-results view, app3.py lines 364-443:
descend output.completeTrackResults[0].trackResults[0]; when completeTrackResults is
empty every field is N/A and the tracking number is the stored fallback id; when only
trackResults is empty the tracking number is completeTrackResults[0].trackingNumber
defaulted to the fallback id; otherwise extract status, estimated delivery, proof of
delivery and the latest scan event chosen by max(scanEvents, key=event_date). -/
def normalizeBatch (parse : String → Option Nat) (tn : String) (raw : RawResponse) : ResultRow :=
  match completeTrackResultsOf raw with
  | [] =>
    { trackingNumber := tn, status := "N/A", estimatedDelivery := Value.str ("N/A")
    , proofOfDelivery := "N/A", latestEvent := "N/A", eventDate := Value.str ("N/A")
    , location := "N/A" }
  | c :: _ =>
    match c.trackResults with
    | [] =>
      { trackingNumber := c.trackingNumber.getD tn, status := "N/A"
      , estimatedDelivery := Value.str ("N/A"), proofOfDelivery := "N/A"
      , latestEvent := "N/A", eventDate := Value.str ("N/A"), location := "N/A" }
    | ti :: _ =>
      match ti.scanEvents with
      | [] =>
        { trackingNumber := c.trackingNumber.getD tn, status := statusBatch ti
        , estimatedDelivery := estDeliveryBatch parse ti.dateAndTimes
        , proofOfDelivery := podBatch ti.availableImages
        , latestEvent := "N/A", eventDate := Value.str ("N/A"), location := "N/A" }
      | e :: es =>
        { trackingNumber := c.trackingNumber.getD tn, status := statusBatch ti
        , estimatedDelivery := estDeliveryBatch parse ti.dateAndTimes
        , proofOfDelivery := podBatch ti.availableImages
        , latestEvent := (pyMax (event_date parse) e es).eventDescription.getD ("N/A")
        , eventDate := eventDateValBatch parse (pyMax (event_date parse) e es)
        , location := locBatch ((pyMax (event_date parse) e es).scanLocation.getD
            ⟨none, none, none, none⟩) }

/-- The all-sentinel row the batch-results view emits when the containers are
missing, keyed by the given tracking number. -/
def naRow (t : String) : ResultRow :=
  { trackingNumber := t, status := "N/A", estimatedDelivery := Value.str ("N/A")
  , proofOfDelivery := "N/A", latestEvent := "N/A", eventDate := Value.str ("N/A")
  , location := "N/A" }

/-- City extraction of the analytics view, app3.py lines 502-503:
info.get(&quot;address&quot;, {}).get(&quot;city&quot;, &quot;N/A&quot;). -/
def cityOf (info : Option PartyInformation) : String :=
  ((info.bind (fun p => p.address)).bind (fun a => a.city)).getD ("N/A")

/-- The package weight list of the analytics view, app3.py line 505:
track_info.get(&quot;packageDetails&quot;, {}).get(&quot;weightAndDimensions&quot;, {}).get(&quot;weight&quot;, []). -/
def packageWeights (ti : TrackInfo) : List WeightEntry :=
  match ti.packageDetails with
  | none => []
  | some pd =>
    match pd.weightAndDimensions with
    | none => []
    | some wd => wd.weight

/-- Weight extraction of the analytics view, app3.py lines 504-510: the first weight
entry parsed with float(), with the sentinel (none) when the list is empty or the
try/except around float() fires. -/
def weightOf (parseF : String → Option Rat) (ti : TrackInfo) : Option Rat :=
  match packageWeights ti with
  | [] => none
  | w :: _ => parseF (w.value.getD ("N/A"))

/-- One row of the analytics dataframe (app3.py lines 511-518); weightValue none
models the sentinel that pd.to_numeric with errors=coerce later turns into NaN. -/
structure AnalyticsRow where
  trackingNumber : String
  status : String
  shipperCity : String
  recipientCity : String
  weightValue : Option Rat
deriving DecidableEq

/-- The per-entry extraction of the analytics view, app3.py lines 489-518: entries
whose completeTrackResults or trackResults container is empty are skipped entirely
(no row is appended), unlike the batch-results view. -/
def analyticsRow (parseF : String → Option Rat) (tn : String) (raw : RawResponse) :
    Option AnalyticsRow :=
  match completeTrackResultsOf raw with
  | [] => none
  | c :: _ =>
    match c.trackResults with
    | [] => none
    | ti :: _ => some
      { trackingNumber := tn
      , status := statusAnalytics ti
      , shipperCity := cityOf ti.shipperInformation
      , recipientCity := cityOf ti.recipientInformation
      , weightValue := weightOf parseF ti }

/-- Lowercasing used to model the case-insensitive pandas str.contains of
app3.py lines 532-533 (ASCII statuses). -/
def lowerChars (cs : List Char) : List Char := cs.map Char.toLower

/-- pat is a leading segment of the second list. -/
def startsWithChars : List Char → List Char → Bool
  | [], _ => true
  | _ :: _, [] => false
  | a :: as, b :: bs => a == b && startsWithChars as bs

/-- Substring test over character lists. -/
def containsChars (pat : List Char) : List Char → Bool
  | [] => startsWithChars pat []
  | c :: rest => startsWithChars pat (c :: rest) || containsChars pat rest

/-- Delivered bucket of the analytics KPIs, app3.py line 531: the status string is
exactly Delivered (case-sensitive). -/
def isDelivered (s : String) : Bool := s == "Delivered"

/-- Exception bucket, app3.py line 533: the status contains the word exception
case-insensitively. -/
def hasException (s : String) : Bool :=
  containsChars (("exception").toList) (lowerChars s.toList)

/-- In-transit bucket, app3.py line 532: not Delivered and not an exception. -/
def isInTransit (s : String) : Bool := !(s == "Delivered") && !(hasException s)

/-- Count of delivered statuses. -/
def deliveredCount (ss : List String) : Nat := ss.countP isDelivered

/-- Count of exception statuses. -/
def exceptionCount (ss : List String) : Nat := ss.countP hasException

/-- Count of in-transit statuses. -/
def inTransitCount (ss : List String) : Nat := ss.countP isInTransit

/-- The shipper-city rows kept by the analytics grouping, app3.py lines 549-550:
first drop rows whose city is the sentinel, then rows whose city is empty. -/
def validShipper (rows : List AnalyticsRow) : List AnalyticsRow :=
  (rows.filter (fun r => !(r.shipperCity == "N/A"))).filter (fun r => !(r.shipperCity == ""))

/-- The recipient-city rows kept by the analytics grouping, app3.py lines 570-571. -/
def validRecipient (rows : List AnalyticsRow) : List AnalyticsRow :=
  (rows.filter (fun r => !(r.recipientCity == "N/A"))).filter (fun r => !(r.recipientCity == ""))

/-- value_counts over the kept shipper cities, app3.py line 552, as a mapping from
each distinct city to its frequency. -/
def shipperCityGroup (rows : List AnalyticsRow) : List (String × Nat) :=
  ((validShipper rows).map (fun r => r.shipperCity)).dedup.map
    (fun c => (c, ((validShipper rows).map (fun r => r.shipperCity)).count c))

/-- value_counts over the kept recipient cities, app3.py line 573. -/
def recipientCityGroup (rows : List AnalyticsRow) : List (String × Nat) :=
  ((validRecipient rows).map (fun r => r.recipientCity)).dedup.map
    (fun c => (c, ((validRecipient rows).map (fun r => r.recipientCity)).count c))

/-- The rows kept by the weight histogram, app3.py line 591: dropna after
pd.to_numeric with errors=coerce, i.e. exactly the rows whose weight parsed. -/
def validWeights (rows : List AnalyticsRow) : List AnalyticsRow :=
  rows.filter (fun r => r.weightValue.isSome)

/- Batch store (src/db_helper.py).  The two tables are lists: references_data rows
are (reference_id, upload_time) pairs and tracking_datanew rows are
(reference_id, tracking_number, raw_json) triples; inserts append. -/

/-- Database state: the references_data and tracking_datanew tables. -/
structure DbState where
  references : List (String × Nat)
  records : List (String × String × RawResponse)
deriving DecidableEq

/-- The supabase upsert with on_conflict=reference_id of db_helper.py lines 115-118.
The client default resolution is merge-duplicates (INSERT .. ON CONFLICT DO UPDATE),
so an existing row has its upload_time overwritten with the new call time; otherwise
a fresh row is appended. -/
def upsertReference (refId : String) (now : Nat) (refs : List (String × Nat)) :
    List (String × Nat) :=
  if refs.any (fun r => r.1 == refId) then
    refs.map (fun r => if r.1 == refId then (refId, now) else r)
  else refs ++ [(refId, now)]

/-- save_upload_with_json of db_helper.py lines 112-150: upsert the reference row,
then insert the tracking record. -/
def save_upload_with_json (refId tn : String) (raw : RawResponse) (now : Nat)
    (db : DbState) : DbState :=
  { references := upsertReference refId now db.references
  , records := db.records ++ [(refId, tn, raw)] }

/-- Outcome of the per-identifier loop of the bulk upload (app3.py lines 273-282):
the success count, the identifiers that failed to fetch (warned about, in order), the
identifiers for which a fetch call was issued, and the final store state. -/
structure LoopResult where
  successCount : Nat
  failures : List String
  fetchCalls : List String
  db : DbState
deriving DecidableEq

/-- The per-identifier loop of the bulk upload, app3.py lines 274-282: fetch each
tracking number in input order; on success save the record and bump the count, on
failure warn and continue. -/
def processIds (fetch : String → Option RawResponse) (refId : String) (now : Nat) :
    List String → DbState → LoopResult
  | [], db => ⟨0, [], [], db⟩
  | tn :: rest, db =>
    match fetch tn with
    | some raw =>
      let r := processIds fetch refId now rest (save_upload_with_json refId tn raw now db)
      ⟨r.successCount + 1, r.failures, tn :: r.fetchCalls, r.db⟩
    | none =>
      let r := processIds fetch refId now rest db
      ⟨r.successCount, tn :: r.failures, tn :: r.fetchCalls, r.db⟩

/-- The bulk-upload orchestration, app3.py lines 264-286: authenticate once; when no
access token is obtained the whole batch is aborted before any fetch (the Bool
component is true and the store is untouched), otherwise run the loop. -/
def submitBatch (auth : Option String) (fetch : String → Option RawResponse)
    (refId : String) (now : Nat) (ids : List String) (db : DbState) :
    Bool × LoopResult :=
  match auth with
  | none => (true, ⟨0, [], [], db⟩)
  | some _ => (false, processIds fetch refId now ids db)

/-- A row of the references_data table as read back (db_helper.py line 158). -/
structure RefRow where
  reference_id : String
  upload_time : String
deriving DecidableEq

/-- A row of the tracking_datanew table as read back (db_helper.py line 174). -/
structure TrackingRow where
  reference_id : String
  tracking_number : String
  raw_json : RawResponse
deriving DecidableEq

/-- get_all_references of db_helper.py lines 156-162: return the query data, or an
empty list when the query raised. -/
def get_all_references (resp : Except String (List RefRow)) : List RefRow :=
  match resp with
  | Except.ok data => data
  | Except.error _ => []

/-- get_tracking_numbers of db_helper.py lines 164-170: project the
tracking_number column, or an empty list when the query raised. -/
def get_tracking_numbers (resp : Except String (List TrackingRow)) : List String :=
  match resp with
  | Except.ok data => data.map (fun item => item.tracking_number)
  | Except.error _ => []

/-- get_tracking_json of db_helper.py lines 172-178: return the rows, or an empty
list when the query raised. -/
def get_tracking_json (resp : Except String (List TrackingRow)) : List TrackingRow :=
  match resp with
  | Except.ok data => data
  | Except.error _ => []

/-- Date parser that never succeeds, used to instantiate the abstract
pd.to_datetime parameter at concrete inputs. -/
def parseNone : String → Option Nat := fun _ => none

/-- Float parser that never succeeds, used to instantiate the abstract float()
parameter at concrete inputs. -/
def parseFNone : String → Option Rat := fun _ => none

/-- Date parser for the three date strings of the specification example. -/
def demoParse : String → Option Nat := fun s =>
  if s = "2024-01-02" then some 20240102
  else if s = "2024-01-05" then some 20240105
  else none

/-- Float parser for the two weight strings of the specification example. -/
def demoFloat : String → Option Rat := fun s =>
  if s = "12.5" then some ((25 : Rat) / 2) else none

/-- A track info with every container empty and every scalar missing. -/
def tiEmpty : TrackInfo := ⟨none, [], [], [], none, none, none⟩

/-- Scan event dated 2024-01-02 from the specification example. -/
def evA : ScanEvent := ⟨some ("first"), some ("2024-01-02"), none, none⟩

/-- Scan event dated 2024-01-05 from the specification example. -/
def evB : ScanEvent := ⟨some ("second"), some ("2024-01-05"), none, none⟩

/-- Scan event with an unparsable date from the specification example. -/
def evC : ScanEvent := ⟨some ("bad"), some ("not-a-date"), none, none⟩

/-- A completeTrackResults entry carrying its own trackingNumber but an empty
trackResults container. -/
def ctrEmptyTR : CompleteTrackResult := ⟨some ("XYZ"), []⟩

/-- Track info whose first package weight entry is the string 12.5. -/
def ti125 : TrackInfo := ⟨none, [], [], [], none, none, some ⟨some ⟨[⟨some ("12.5")⟩]⟩⟩⟩

/-- Track info whose first package weight entry is the unparsable string N/A. -/
def tiNAw : TrackInfo := ⟨none, [], [], [], none, none, some ⟨some ⟨[⟨some ("N/A")⟩]⟩⟩⟩

/-- Analytics row whose cities are the sentinel and whose weight did not parse. -/
def rowNoWeight : AnalyticsRow := ⟨"t", "s", "N/A", "N/A", none⟩

/- ===================== Helper lemmas ===================== -/

/-- Unfolding the Python max fold by one element. -/
theorem pyMax_cons {α : Type} (key : α → Nat) (x z : α) (zs : List α) :
    pyMax key x (z :: zs) = pyMax key (if key x < key z then z else x) zs := rfl

/-- The element returned by the Python max has a maximal key. -/
theorem pyMax_le {α : Type} (key : α → Nat) (x : α) (xs : List α) :
    ∀ y ∈ x :: xs, key y ≤ key (pyMax key x xs) := by
  induction xs generalizing x with
  | nil =>
    intro y hy
    simp only [List.mem_singleton] at hy
    subst hy
    exact Nat.le_refl _
  | cons z zs ih =>
    intro y hy
    rw [pyMax_cons]
    have hx : key x ≤ key (if key x < key z then z else x) := by
      split
      · omega
      · exact Nat.le_refl _
    have hz : key z ≤ key (if key x < key z then z else x) := by
      split
      · exact Nat.le_refl _
      · omega
    have hseed := ih (if key x < key z then z else x) _ (List.mem_cons_self _ _)
    rcases List.mem_cons.mp hy with h1 | h2
    · subst h1
      exact Nat.le_trans hx hseed
    · rcases List.mem_cons.mp h2 with h3 | h4
      · subst h3
        exact Nat.le_trans hz hseed
      · exact ih _ y (List.mem_cons_of_mem _ h4)

/-- The element returned by the Python max is the first of the list attaining the
maximal key: the replace-only-on-strictly-greater fold makes ties go to the earlier
element. -/
theorem pyMax_first {α : Type} (key : α → Nat) (x : α) (xs : List α) :
    (x :: xs).find? (fun y => decide (key (pyMax key x xs) ≤ key y))
      = some (pyMax key x xs) := by
  induction xs generalizing x with
  | nil =>
    simp [pyMax, List.find?]
  | cons z zs ih =>
    rw [pyMax_cons]
    by_cases hxz : key x < key z
    · rw [if_pos hxz]
      have hzm : key z ≤ key (pyMax key z zs) := pyMax_le key z zs z (List.mem_cons_self _ _)
      have hxm : ¬((fun y => decide (key (pyMax key z zs) ≤ key y)) x = true) := by
        simp only [decide_eq_true_eq]
        omega
      rw [List.find?_cons_of_neg (p := fun y => decide (key (pyMax key z zs) ≤ key y)) _ hxm]
      exact ih z
    · rw [if_neg hxz]
      by_cases hmx : key (pyMax key x zs) ≤ key x
      · have h1 : (x :: zs).find? (fun y => decide (key (pyMax key x zs) ≤ key y)) = some x :=
          List.find?_cons_of_pos (p := fun y => decide (key (pyMax key x zs) ≤ key y)) _
            (by simpa using hmx)
        have h2 := ih x
        have h4 : pyMax key x zs = x := Option.some.inj (h2.symm.trans h1)
        rw [h4]
        exact List.find?_cons_of_pos (p := fun y => decide (key x ≤ key y)) _ (by simp)
      · have hx2 : key x < key (pyMax key x zs) := Nat.lt_of_not_le hmx
        have hz2 : key z ≤ key x := Nat.le_of_not_lt hxz
        have hpx : ¬((fun y => decide (key (pyMax key x zs) ≤ key y)) x = true) := by
          simp only [decide_eq_true_eq]
          omega
        have hpz : ¬((fun y => decide (key (pyMax key x zs) ≤ key y)) z = true) := by
          simp only [decide_eq_true_eq]
          omega
        rw [List.find?_cons_of_neg (p := fun y => decide (key (pyMax key x zs) ≤ key y)) _ hpx,
            List.find?_cons_of_neg (p := fun y => decide (key (pyMax key x zs) ≤ key y)) _ hpz]
        have h2 := ih x
        rw [List.find?_cons_of_neg (p := fun y => decide (key (pyMax key x zs) ≤ key y)) _ hpx]
          at h2
        exact h2

/-- Every status string falls in exactly one of the three analytics buckets. -/
theorem status_partition_elem (s : String) :
    (isDelivered s = true ∧ hasException s = false ∧ isInTransit s = false) ∨
    (isDelivered s = false ∧ hasException s = true ∧ isInTransit s = false) ∨
    (isDelivered s = false ∧ hasException s = false ∧ isInTransit s = true) := by
  by_cases hd : isDelivered s = true
  · left
    have hb : (s == "Delivered") = true := hd
    have hs : s = ("Delivered") := eq_of_beq hb
    subst hs
    exact ⟨by decide, by decide, by decide⟩
  · have hd2 : isDelivered s = false := by
      revert hd
      cases isDelivered s <;> simp
    have hb2 : (s == "Delivered") = false := hd2
    by_cases he : hasException s = true
    · right
      left
      refine ⟨hd2, he, ?_⟩
      simp [isInTransit, he]
    · have he2 : hasException s = false := by
        revert he
        cases hasException s <;> simp
      right
      right
      refine ⟨hd2, he2, ?_⟩
      simp [isInTransit, he2, hb2]

/-- Invariant of the bulk-upload loop: counts, failure list, call log and appended
records, by induction over the identifier list. -/
theorem processIds_spec (fetch : String → Option RawResponse) (refId : String) (now : Nat) :
    ∀ (ids : List String) (db : DbState),
      (processIds fetch refId now ids db).successCount
          = (ids.filter (fun tn => (fetch tn).isSome)).length ∧
      (processIds fetch refId now ids db).failures
          = ids.filter (fun tn => (fetch tn).isNone) ∧
      (processIds fetch refId now ids db).fetchCalls = ids ∧
      (processIds fetch refId now ids db).db.records
          = db.records
            ++ ids.filterMap (fun tn => (fetch tn).map (fun raw => (refId, tn, raw))) := by
  intro ids
  induction ids with
  | nil =>
    intro db
    simp [processIds]
  | cons tn rest ih =>
    intro db
    cases hf : fetch tn with
    | none =>
      have h := ih db
      refine ⟨?_, ?_, ?_, ?_⟩ <;>
        simp [processIds, hf, List.filter_cons, List.filterMap_cons, h.1, h.2.1, h.2.2.1,
          h.2.2.2]
    | some raw =>
      have h := ih (save_upload_with_json refId tn raw now db)
      simp only [processIds, hf]
      refine ⟨?_, ?_, ?_, ?_⟩
      · rw [h.1]
        simp [List.filter_cons, hf]
      · rw [h.2.1]
        simp [List.filter_cons, hf]
      · rw [h.2.2.1]
      · rw [h.2.2.2]
        simp [save_upload_with_json, List.filterMap_cons, hf, List.append_assoc]

/-- Keys surviving the two city filters are neither the sentinel nor empty. -/
theorem cityGroupAux_keys (f : AnalyticsRow → String) (rows : List AnalyticsRow)
    (c : String)
    (h : c ∈ ((rows.filter (fun r => !(f r == "N/A"))).filter (fun r => !(f r == ""))).map f) :
    c ≠ ("N/A") ∧ c ≠ ("") := by
  obtain ⟨r, hr, rfl⟩ := List.mem_map.mp h
  have h2 := List.mem_filter.mp hr
  have h3 := List.mem_filter.mp h2.1
  constructor
  · intro hcon
    rw [hcon] at h3
    simp at h3
  · intro hcon
    rw [hcon] at h2
    simp at h2

/-- For a non-sentinel, non-empty city the filtered count agrees with the count over
all rows. -/
theorem cityGroupAux_count (f : AnalyticsRow → String) (rows : List AnalyticsRow)
    (c : String) (hna : c ≠ ("N/A")) (he : c ≠ ("")) :
    (((rows.filter (fun r => !(f r == "N/A"))).filter (fun r => !(f r == ""))).map f).count c
      = rows.countP (fun r => f r == c) := by
  rw [List.count_eq_countP, List.countP_map, List.countP_filter, List.countP_filter]
  apply List.countP_congr
  intro r hr
  simp only [Function.comp_apply, Bool.and_eq_true, beq_iff_eq, Bool.not_eq_true']
  constructor
  · rintro ⟨⟨h1, h2⟩, h3⟩
    exact h1
  · intro h1
    subst h1
    refine ⟨⟨rfl, ?_⟩, ?_⟩
    · simp [he]
    · simp [hna]

/-- When every city is the sentinel the grouping pipeline yields the empty mapping. -/
theorem cityGroupAux_empty (f : AnalyticsRow → String) (rows : List AnalyticsRow)
    (h : ∀ r ∈ rows, f r = ("N/A")) :
    (((rows.filter (fun r => !(f r == "N/A"))).filter (fun r => !(f r == ""))).map f).dedup.map
      (fun c => (c,
        (((rows.filter (fun r => !(f r == "N/A"))).filter (fun r => !(f r == ""))).map
          f).count c))
      = [] := by
  have h1 : rows.filter (fun r => !(f r == "N/A")) = [] := by
    rw [List.filter_eq_nil_iff]
    intro r hr
    simp [h r hr]
  rw [h1]
  rfl

/- ===================== Claim theorems ===================== -/

/-- Claim C1, counterexample: for a raw response whose trackResults container is
empty but whose completeTrackResults entry carries its own trackingNumber, the
batch-results normalization keys the row by that embedded number, not by the
supplied fallback identifier, refuting the claim as stated. -/
theorem normalize_keeps_embedded_tracking_number :
    (normalizeBatch parseNone ("FB") ⟨some ⟨[ctrEmptyTR]⟩⟩).trackingNumber ≠ ("FB") ∧
    (normalizeBatch parseNone ("FB") ⟨some ⟨[ctrEmptyTR]⟩⟩).trackingNumber = ("XYZ") := by
  constructor
  · decide
  · decide

/-- Claim C1, amended: when output or completeTrackResults is missing or empty the
batch-results normalization returns the all-sentinel row keyed by the fallback
identifier; when only trackResults is missing or empty it returns the all-sentinel
row keyed by completeTrackResults[0].trackingNumber, falling back to the supplied
identifier only when that key is absent.  Normalization is a total function, so it
never raises. -/
theorem normalizeBatch_missing_containers (parse : String → Option Nat) (tn : String)
    (raw : RawResponse) :
    (completeTrackResultsOf raw = [] → normalizeBatch parse tn raw = naRow tn) ∧
    (∀ c rest, completeTrackResultsOf raw = c :: rest → c.trackResults = [] →
      normalizeBatch parse tn raw = naRow (c.trackingNumber.getD tn)) := by
  constructor
  · intro h
    unfold normalizeBatch
    rw [h]
    rfl
  · intro c rest h1 h2
    unfold normalizeBatch
    rw [h1]
    dsimp only
    rw [h2]
    rfl

/-- Claim C1, witness: the amended theorem evaluated at a response with no output
object and at a response whose only entry has an empty trackResults list. -/
theorem normalizeBatch_missing_containers_witness :
    normalizeBatch parseNone ("FB") ⟨none⟩ = naRow ("FB") ∧
    normalizeBatch parseNone ("FB") ⟨some ⟨[ctrEmptyTR]⟩⟩ = naRow ("XYZ") :=
  ⟨(normalizeBatch_missing_containers parseNone ("FB") ⟨none⟩).1 rfl,
   (normalizeBatch_missing_containers parseNone ("FB") ⟨some ⟨[ctrEmptyTR]⟩⟩).2
     ctrEmptyTR [] rfl rfl⟩

/-- Claim C2: on a nonempty scan-events list the selected latest event maximizes the
parsed date, the first event attaining the maximal key wins ties (original list
order), and, provided every parsable date is strictly above the minimum sentinel
timestamp, an event with an unparsable date is never selected when some event has a
parsable date. -/
theorem latest_event_selection (parse : String → Option Nat)
    (hpos : ∀ s t, parse s = some t → 0 < t) (e : ScanEvent) (es : List ScanEvent) :
    (∀ ev ∈ e :: es, event_date parse ev ≤ event_date parse (pyMax (event_date parse) e es)) ∧
    (e :: es).find?
        (fun y => decide (event_date parse (pyMax (event_date parse) e es)
          ≤ event_date parse y))
      = some (pyMax (event_date parse) e es) ∧
    ((∃ ev, ev ∈ e :: es ∧ (parse (ev.date.getD (""))).isSome = true) →
      (parse ((pyMax (event_date parse) e es).date.getD (""))).isSome = true) := by
  refine ⟨pyMax_le _ _ _, pyMax_first _ _ _, ?_⟩
  rintro ⟨ev, hmem, hsome⟩
  obtain ⟨t, ht⟩ := Option.isSome_iff_exists.mp hsome
  have h1 : 0 < t := hpos _ _ ht
  have h2 : event_date parse ev = t := by simp [event_date, ht]
  have h3 := pyMax_le (event_date parse) e es ev hmem
  cases hsel : parse ((pyMax (event_date parse) e es).date.getD ("")) with
  | some v => simp
  | none =>
    exfalso
    have h4 : event_date parse (pyMax (event_date parse) e es) = 0 := by
      simp [event_date, hsel]
    omega

/-- Claim C2, witness: on the specification example with dates 2024-01-02,
2024-01-05 and not-a-date, the selected latest event is the one dated 2024-01-05
and its date is parsable. -/
theorem latest_event_selection_witness :
    (evA :: [evB, evC]).find?
        (fun y => decide (event_date demoParse (pyMax (event_date demoParse) evA [evB, evC])
          ≤ event_date demoParse y))
      = some (pyMax (event_date demoParse) evA [evB, evC]) ∧
    (demoParse ((pyMax (event_date demoParse) evA [evB, evC]).date.getD (""))).isSome = true ∧
    pyMax (event_date demoParse) evA [evB, evC] = evB :=
  ⟨(latest_event_selection demoParse
      (by
        intro s t h
        by_cases h1 : s = "2024-01-02"
        · simp [demoParse, h1] at h
          omega
        · by_cases h2 : s = "2024-01-05"
          · simp [demoParse, h1, h2] at h
            omega
          · simp [demoParse, h1, h2] at h)
      evA [evB, evC]).2.1,
   (latest_event_selection demoParse
      (by
        intro s t h
        by_cases h1 : s = "2024-01-02"
        · simp [demoParse, h1] at h
          omega
        · by_cases h2 : s = "2024-01-05"
          · simp [demoParse, h1, h2] at h
            omega
          · simp [demoParse, h1, h2] at h)
      evA [evB, evC]).2.2 ⟨evB, by decide, by decide⟩,
   by decide⟩

/-- Claim C3: delivered counts statuses exactly equal to Delivered, exception counts
statuses containing the word exception case-insensitively, in-transit counts the
rest; the buckets are mutually exclusive and exhaustive and their counts always sum
to the total. -/
theorem status_classification_partition (ss : List String) :
    deliveredCount ss + exceptionCount ss + inTransitCount ss = ss.length ∧
    (∀ s : String, isDelivered s = true ↔ s = ("Delivered")) ∧
    (∀ s : String, isInTransit s = true ↔ (isDelivered s = false ∧ hasException s = false)) ∧
    (∀ s : String, ¬(isDelivered s = true ∧ hasException s = true)) ∧
    (∀ s : String, isDelivered s = true ∨ hasException s = true ∨ isInTransit s = true) := by
  refine ⟨?_, ?_, ?_, ?_, ?_⟩
  · induction ss with
    | nil => simp [deliveredCount, exceptionCount, inTransitCount]
    | cons s t ih =>
      have h := status_partition_elem s
      simp only [deliveredCount, exceptionCount, inTransitCount, List.countP_cons,
        List.length_cons] at *
      rcases h with ⟨h1, h2, h3⟩ | ⟨h1, h2, h3⟩ | ⟨h1, h2, h3⟩ <;>
        simp [h1, h2, h3] <;> omega
  · intro s
    constructor
    · intro h
      exact eq_of_beq h
    · intro h
      subst h
      decide
  · intro s
    rcases status_partition_elem s with ⟨h1, h2, h3⟩ | ⟨h1, h2, h3⟩ | ⟨h1, h2, h3⟩ <;>
      simp [h1, h2, h3, isInTransit] <;> simp [isDelivered] at h1 ⊢ <;> simp [h1, h2]
  · intro s
    rcases status_partition_elem s with ⟨h1, h2, h3⟩ | ⟨h1, h2, h3⟩ | ⟨h1, h2, h3⟩ <;>
      simp [h1, h2, h3]
  · intro s
    rcases status_partition_elem s with ⟨h1, h2, h3⟩ | ⟨h1, h2, h3⟩ | ⟨h1, h2, h3⟩ <;>
      simp [h1, h2, h3]

/-- Claim C3, witness: on the specification example with one Delivered, one
Shipment Exception and one In Transit status each bucket counts one and the counts
sum to the total. -/
theorem status_classification_witness :
    deliveredCount [("Delivered"), ("Shipment Exception"), ("In Transit")] = 1 ∧
    exceptionCount [("Delivered"), ("Shipment Exception"), ("In Transit")] = 1 ∧
    inTransitCount [("Delivered"), ("Shipment Exception"), ("In Transit")] = 1 ∧
    deliveredCount [("Delivered"), ("Shipment Exception"), ("In Transit")]
      + exceptionCount [("Delivered"), ("Shipment Exception"), ("In Transit")]
      + inTransitCount [("Delivered"), ("Shipment Exception"), ("In Transit")]
      = ([("Delivered"), ("Shipment Exception"), ("In Transit")] : List String).length :=
  ⟨by decide, by decide, by decide,
   (status_classification_partition
     [("Delivered"), ("Shipment Exception"), ("In Transit")]).1⟩

/-- Claim C4: after successful authentication the bulk-upload loop visits the
identifiers in input order, its success count equals the number of successful
fetches, the failed identifiers are recorded in order, and the store gains exactly
one record per successfully fetched identifier, all under the same reference id. -/
theorem submitBatch_partial_failure (fetch : String → Option RawResponse)
    (tok refId : String) (now : Nat) (ids : List String) (db : DbState) :
    (submitBatch (some tok) fetch refId now ids db).2.successCount
        = (ids.filter (fun tn => (fetch tn).isSome)).length ∧
    (submitBatch (some tok) fetch refId now ids db).2.failures
        = ids.filter (fun tn => (fetch tn).isNone) ∧
    (submitBatch (some tok) fetch refId now ids db).2.fetchCalls = ids ∧
    (submitBatch (some tok) fetch refId now ids db).2.db.records
        = db.records
          ++ ids.filterMap (fun tn => (fetch tn).map (fun raw => (refId, tn, raw))) := by
  have h := processIds_spec fetch refId now ids db
  exact ⟨h.1, h.2.1, h.2.2.1, h.2.2.2⟩

/-- Claim C5, counterexample: the second upsert of the same reference id is not a
no-op; it overwrites upload_time with the later call time. -/
theorem upsert_second_call_not_noop :
    upsertReference ("R") 2 (upsertReference ("R") 1 []) ≠ upsertReference ("R") 1 [] ∧
    upsertReference ("R") 2 (upsertReference ("R") 1 []) = [(("R"), 2)] := by
  constructor
  · decide
  · decide

/-- Claim C5, amended: upserting the same reference id twice leaves exactly one
batch row for that id, but the second call is not a no-op: merge-on-conflict
replaces the upload_time of the row with the timestamp of the second call. -/
theorem upsert_twice_single_row_updates_time (refId : String) (t1 t2 : Nat)
    (refs : List (String × Nat)) (h : ∀ r ∈ refs, r.1 ≠ refId) :
    upsertReference refId t2 (upsertReference refId t1 refs) = refs ++ [(refId, t2)] ∧
    ((upsertReference refId t2 (upsertReference refId t1 refs)).filter
        (fun r => r.1 == refId)).length = 1 := by
  have hany : refs.any (fun r => r.1 == refId) = false := by
    rw [List.any_eq_false]
    intro r hr
    simp [h r hr]
  have h1 : upsertReference refId t1 refs = refs ++ [(refId, t1)] := by
    simp [upsertReference, hany]
  have hany2 : (refs ++ [(refId, t1)]).any (fun r => r.1 == refId) = true := by
    simp [List.any_append]
  have hmap : refs.map (fun r => if r.1 == refId then (refId, t2) else r) = refs := by
    conv_rhs => rw [← List.map_id refs]
    apply List.map_congr_left
    intro r hr
    simp [h r hr]
  have h2 : upsertReference refId t2 (refs ++ [(refId, t1)]) = refs ++ [(refId, t2)] := by
    simp only [upsertReference, hany2, if_pos, List.map_append]
    rw [hmap]
    simp
  refine ⟨by rw [h1, h2], ?_⟩
  rw [h1, h2, List.filter_append]
  have h3 : refs.filter (fun r => r.1 == refId) = [] := by
    rw [List.filter_eq_nil_iff]
    intro r hr
    simp [h r hr]
  simp [h3]

/-- Claim C5, witness: the amended theorem evaluated on a table holding one other
reference row. -/
theorem upsert_twice_witness :
    upsertReference ("R") 2 (upsertReference ("R") 1 [(("S"), 5)])
      = [(("S"), 5)] ++ [(("R"), 2)] ∧
    ((upsertReference ("R") 2 (upsertReference ("R") 1 [(("S"), 5)])).filter
        (fun r => r.1 == ("R"))).length = 1 :=
  upsert_twice_single_row_updates_time ("R") 1 2 [(("S"), 5)] (by decide)

/-- Claim C6, counterexample: for the same raw response with a present trackResults
entry but no latestStatusDetail, the batch-results view reports status N/A while
the analytics view reports UNKNOWN, so the call sites do not share one
default-value policy. -/
theorem analytics_status_default_differs :
    (normalizeBatch parseNone ("T") ⟨some ⟨[⟨none, [tiEmpty]⟩]⟩⟩).status = ("N/A") ∧
    (analyticsRow parseFNone ("T") ⟨some ⟨[⟨none, [tiEmpty]⟩]⟩⟩).map
        (fun r => r.status) = some ("UNKNOWN") ∧
    ("N/A" : String) ≠ ("UNKNOWN") := by
  refine ⟨by decide, by decide, by decide⟩

/-- Claim C6, amended: the single-lookup and batch-results call sites share the
same defaulting for status, proof of delivery and location (all N/A); the analytics
call site differs: it defaults a missing status to UNKNOWN and drops an entry whose
trackResults container is empty instead of emitting a sentinel row. -/
theorem call_sites_defaults (ti : TrackInfo) (imgs : List AvailableImage)
    (loc : ScanLocation) (pf : String → Option Rat) (tn : String)
    (c : CompleteTrackResult) :
    statusSingle ti = statusBatch ti ∧
    podSingle imgs = podBatch imgs ∧
    locSingle loc = locBatch loc ∧
    (ti.latestStatusDetail.bind (fun d => d.statusByLocale) = none →
      statusAnalytics ti = ("UNKNOWN") ∧ statusBatch ti = ("N/A")) ∧
    (c.trackResults = [] → analyticsRow pf tn ⟨some ⟨[c]⟩⟩ = none) := by
  refine ⟨rfl, rfl, rfl, ?_, ?_⟩
  · intro h
    constructor
    · simp [statusAnalytics, h]
    · simp [statusBatch, h]
  · intro h
    unfold analyticsRow
    simp only [completeTrackResultsOf]
    rw [h]

/-- Claim C6, witness: the amended theorem evaluated at a track info with no status
detail and an entry with an empty trackResults container. -/
theorem call_sites_defaults_witness :
    (statusAnalytics tiEmpty = ("UNKNOWN") ∧ statusBatch tiEmpty = ("N/A")) ∧
    analyticsRow parseFNone ("T") ⟨some ⟨[⟨none, []⟩]⟩⟩ = none :=
  ⟨(call_sites_defaults tiEmpty [] ⟨none, none, none, none⟩ parseFNone ("T")
      ⟨none, []⟩).2.2.2.1 rfl,
   (call_sites_defaults tiEmpty [] ⟨none, none, none, none⟩ parseFNone ("T")
      ⟨none, []⟩).2.2.2.2 rfl⟩

/-- Claim C7: the normalized weight is the first entry of the package weight list
handed to the float parser; an empty list gives the sentinel, a parse failure gives
the sentinel (the parser returns none), and every row whose weight is the sentinel
is excluded from the weight histogram. -/
theorem weight_extraction_and_histogram (parseF : String → Option Rat) (ti : TrackInfo)
    (rows : List AnalyticsRow) :
    (packageWeights ti = [] → weightOf parseF ti = none) ∧
    (∀ w rest, packageWeights ti = w :: rest →
      weightOf parseF ti = parseF (w.value.getD ("N/A"))) ∧
    (∀ r ∈ rows, r.weightValue = none → r ∉ validWeights rows) := by
  refine ⟨?_, ?_, ?_⟩
  · intro h
    unfold weightOf
    rw [h]
  · intro w rest h
    unfold weightOf
    rw [h]
  · intro r hr hnone hmem
    have := (List.mem_filter.mp hmem).2
    rw [hnone] at this
    simp at this

/-- Claim C7, witness: a weight list holding the string 12.5 yields the rational
25/2, one holding N/A yields the sentinel, and a sentinel-weight row is excluded
from the histogram rows. -/
theorem weight_extraction_witness :
    weightOf demoFloat ti125 = some ((25 : Rat) / 2) ∧
    weightOf demoFloat tiNAw = none ∧
    rowNoWeight ∉ validWeights [rowNoWeight] := by
  refine ⟨?_, ?_, ?_⟩
  · have h := (weight_extraction_and_histogram demoFloat ti125 []).2.1 ⟨some ("12.5")⟩ [] rfl
    rw [h]
    rfl
  · have h := (weight_extraction_and_histogram demoFloat tiNAw []).2.1 ⟨some ("N/A")⟩ [] rfl
    rw [h]
    rfl
  · exact (weight_extraction_and_histogram demoFloat tiNAw [rowNoWeight]).2.2
      rowNoWeight (by decide) rfl

/-- Claim C8: both city groupings keep only cities that are neither the sentinel
nor empty, each kept city is counted over all rows carrying it, and when every city
is the sentinel the grouping is the empty mapping. -/
theorem city_grouping_valid_only (rows : List AnalyticsRow) :
    (∀ p ∈ shipperCityGroup rows, p.1 ≠ ("N/A") ∧ p.1 ≠ ("") ∧
      p.2 = rows.countP (fun r => r.shipperCity == p.1)) ∧
    (∀ p ∈ recipientCityGroup rows, p.1 ≠ ("N/A") ∧ p.1 ≠ ("") ∧
      p.2 = rows.countP (fun r => r.recipientCity == p.1)) ∧
    ((∀ r ∈ rows, r.shipperCity = ("N/A")) → shipperCityGroup rows = []) ∧
    ((∀ r ∈ rows, r.recipientCity = ("N/A")) → recipientCityGroup rows = []) := by
  refine ⟨?_, ?_, ?_, ?_⟩
  · intro p hp
    obtain ⟨c, hc, rfl⟩ := List.mem_map.mp hp
    obtain ⟨hna, he⟩ := cityGroupAux_keys (fun r => r.shipperCity) rows c
      (List.mem_dedup.mp hc)
    exact ⟨hna, he, cityGroupAux_count (fun r => r.shipperCity) rows c hna he⟩
  · intro p hp
    obtain ⟨c, hc, rfl⟩ := List.mem_map.mp hp
    obtain ⟨hna, he⟩ := cityGroupAux_keys (fun r => r.recipientCity) rows c
      (List.mem_dedup.mp hc)
    exact ⟨hna, he, cityGroupAux_count (fun r => r.recipientCity) rows c hna he⟩
  · intro h
    exact cityGroupAux_empty (fun r => r.shipperCity) rows h
  · intro h
    exact cityGroupAux_empty (fun r => r.recipientCity) rows h

/-- Claim C8, witness: on a row set where every city is the sentinel both groupings
are empty. -/
theorem city_grouping_witness :
    shipperCityGroup [rowNoWeight] = [] ∧ recipientCityGroup [rowNoWeight] = [] :=
  ⟨(city_grouping_valid_only [rowNoWeight]).2.2.1 (by decide),
   (city_grouping_valid_only [rowNoWeight]).2.2.2 (by decide)⟩

/-- Claim C9: when authentication yields no token the batch is aborted before any
work: no fetch call is issued, the counts are zero and the store is unchanged;
with a token the loop reaches every identifier regardless of per-item failures and
never aborts. -/
theorem auth_failure_aborts_before_fetch (fetch : String → Option RawResponse)
    (refId : String) (now : Nat) (ids : List String) (db : DbState) :
    submitBatch none fetch refId now ids db = (true, ⟨0, [], [], db⟩) ∧
    (∀ tok, (submitBatch (some tok) fetch refId now ids db).1 = false ∧
      (submitBatch (some tok) fetch refId now ids db).2.fetchCalls = ids) :=
  ⟨rfl, fun _ => ⟨rfl, (processIds_spec fetch refId now ids db).2.2.1⟩⟩

/-- Claim C10: each batch-store read returns the empty list whenever the underlying
query raises, for every error value. -/
theorem db_reads_return_empty_on_error (e : String) :
    get_all_references (Except.error e) = [] ∧
    get_tracking_numbers (Except.error e) = [] ∧
    get_tracking_json (Except.error e) = [] :=
  ⟨rfl, rfl, rfl⟩

end FedexTracker
